import Mathlib

/-!
Verification of the booking transaction orchestrator of the FHIR
appointment service (`src/app.js`, handler `POST /api/book`, lines
526-680), against its natural-language specification.

The handler is embedded shallowly: every `await fetch(...)` against the
FHIR backend becomes a field of a `Backend` record of response
functions, the in-process `bookingLocks` map becomes an explicit list of
held slot ids threaded through the operation, and each `return
res.status(...)` / `throw` site becomes a constructor of `BookOutcome`.
The `catch` block of the source maps every thrown outcome to HTTP 500;
this mapping is `httpStatus`.
-/

namespace Booking

/-- A Slot resource as used by the handler: `id`, `schedule.reference`
(`none` models an absent `schedule` field, which makes the source throw
a TypeError), `start`, `end`, `status`. -/
structure FhirSlot where
  id : String
  schedule : Option String
  start : String
  «end» : String
  status : String
deriving DecidableEq

/-- One element of `Appointment.participant`: an actor reference and a
participation status. -/
structure Participant where
  actor : String
  status : String
deriving DecidableEq

/-- An Appointment resource as used by the handler.  `slot` is the list
of slot references (`none` models an entry without a `reference` field),
`supportingInformation` holds the schedule reference. -/
structure FhirAppointment where
  id : String
  status : String
  slot : List (Option String)
  supportingInformation : List String
  start : String
  «end» : String
  participant : List Participant
deriving DecidableEq

/-- A Schedule resource as used by the handler: only the list of
`actor[*].reference` strings is read. -/
structure FhirSchedule where
  actor : List String
deriving DecidableEq

/-- A PractitionerRole resource as used by the handler: only
`organization?.reference` is read. -/
structure PractRole where
  organization : Option String
deriving DecidableEq

/-- One entry of the transaction bundle built by the handler:
a slot update (`PUT` with the full resource and the request url), an
appointment deletion (`DELETE` by url), or the appointment creation
(`POST` with the new resource; its `id` is assigned by the server). -/
inductive TxEntry where
  | putSlot (resource : FhirSlot) (url : String)
  | deleteAppt (url : String)
  | postAppt (resource : FhirAppointment)
deriving DecidableEq

/-- The `response` object of one entry of the transaction-response
bundle: a status string and, for creations, a `location`. -/
structure TxResp where
  status : String
  location : Option String
deriving DecidableEq

/-- One entry of the transaction-response bundle; `response = none`
models an entry without a `response` field. -/
structure TxRespEntry where
  response : Option TxResp
deriving DecidableEq

/-- A backend interaction performed by the handler, in program order.
Used to state that rejected or failed attempts perform no (or no
further) backend calls. -/
inductive BackendCall where
  | getSlot (id : String)
  | getSchedule (ref : String)
  | searchRoles (practitionerRef : String)
  | searchPatient (personId orgId : String)
  | searchAppts (patientRef scheduleRef : String)
  | getSlotByRef (ref : String)
  | postTx (entries : List TxEntry)
deriving DecidableEq

/-- The environment of the handler: the JWT verifier and one response
function per FHIR request the handler can issue.  `none` models a
failed fetch (`!res.ok`); for searches, `some []` models an empty
bundle (`total === 0`).  `searchAppts` has no ok-check in the source,
so it is total. -/
structure Backend where
  verifyJwt : String → Option String
  getSlot : String → Option FhirSlot
  getSchedule : String → Option FhirSchedule
  searchRoles : String → Option (List PractRole)
  searchPatient : String → String → Option (List String)
  searchAppts : String → String → List FhirAppointment
  getSlotByRef : String → Option FhirSlot
  tx : List TxEntry → Option (List TxRespEntry)

/-- Every exit of the handler, one constructor per `return res.status`
or `throw` site of the source.  Thrown outcomes are turned into HTTP
500 responses by the catch block, see `httpStatus`. -/
inductive BookOutcome where
  | missingSlotId
  | busy
  | notLoggedIn
  | tokenInvalid
  | slotNotFound
  | noScheduleRef
  | scheduleNotFound
  | noActor
  | unsupportedActorType (actorRef : String)
  | roleFetchFailed (actorRef : String)
  | roleNotFound (actorRef : String)
  | organizationMissing (actorRef : String)
  | patientSearchFailed
  | patientNotRegistered
  | noOldApptSlot
  | bookingFailed
  | invariantViolation
  | noLocation
  | success (message appointmentId : String)
deriving DecidableEq

/-- Model of the JavaScript `String.prototype.startsWith`: prefix test
on the character lists. -/
def jsStartsWith (s pre : String) : Bool :=
  pre.data.isPrefixOf s.data

/-- Split a character list at every slash, keeping empty pieces, as the
JavaScript `split` does. -/
def splitSlash : List Char → List (List Char)
  | [] => [[]]
  | c :: rest =>
    match splitSlash rest with
    | [] => if c = '/' then [[], [c]] else [[c]]
    | h :: t => if c = '/' then [] :: h :: t else (c :: h) :: t

/-- Model of the JavaScript idiom `ref.split` on a slash followed by
indexing at 1, as used by the handler: the second slash-separated
component; when it does not exist, the JavaScript value is `undefined`,
which the source interpolates into a string. -/
def jsSecond (s : String) : String :=
  match splitSlash s.data with
  | _ :: y :: _ => String.mk y
  | _ => "undefined"

/-- The HTTP status the handler responds with for each outcome,
mirroring the `res.status(...)` calls of the source; every thrown
outcome reaches the catch block, which responds 500. -/
def httpStatus : BookOutcome → Nat
  | .missingSlotId => 400
  | .busy => 409
  | .notLoggedIn => 401
  | .tokenInvalid => 401
  | .slotNotFound => 404
  | .scheduleNotFound => 404
  | .patientNotRegistered => 404
  | .success _ _ => 200
  | _ => 500

/-- The five resolution-step failures named by the spec: slot not
found, schedule not found, role binding not found, organization
reference missing, patient not registered. -/
def isResolutionFailure : BookOutcome → Bool
  | .slotNotFound | .scheduleNotFound | .roleNotFound _
  | .organizationMissing _ | .patientNotRegistered => true
  | _ => false

/-- Result of the body of the handler (the `try` block): the outcome,
the transaction bundle submitted to the backend (if any), and the trace
of backend calls. -/
structure CoreResult where
  outcome : BookOutcome
  submitted : Option (List TxEntry)
  calls : List BackendCall
deriving DecidableEq

/-- The predicate the handler scans the transaction response with
(line 668): the entry has a response whose status starts with 201. -/
def hasCreatedStatus (e : TxRespEntry) : Bool :=
  match e.response with
  | some r => jsStartsWith r.status "201"
  | none => false

/-- Step 8 of the source (lines 608-629): if the conflict query found a
prior appointment, build the superseding entries.  Reading
`oldAppointment.slot[0].reference` with an empty `slot` array throws
(`.error`); an entry without a `reference`, or a failed fetch of the
old slot, skips the slot-freeing update. -/
def conflictSection (env : Backend) (existing : List FhirAppointment) :
    Except BookOutcome (List TxEntry × String × List BackendCall) :=
  match existing with
  | [] => .ok ([], "預約成功！", [])
  | oldAppointment :: _ =>
    let oldAppointmentRef := "Appointment/" ++ oldAppointment.id
    match oldAppointment.slot with
    | [] => .error .noOldApptSlot
    | none :: _ => .ok ([.deleteAppt oldAppointmentRef], "預約已更新！", [])
    | some oldSlotRef :: _ =>
      match env.getSlotByRef oldSlotRef with
      | none => .ok ([.deleteAppt oldAppointmentRef], "預約已更新！",
          [.getSlotByRef oldSlotRef])
      | some oldSlot =>
        .ok ([.putSlot { oldSlot with status := "free" } oldSlotRef,
              .deleteAppt oldAppointmentRef], "預約已更新！",
          [.getSlotByRef oldSlotRef])

/-- The body of the `try` block of the handler (lines 538-672): JWT
check, resolution chain, conflict detection, transaction build and
submission, and extraction of the new appointment id. -/
def bookCore (env : Backend) (slotId : String) (token : Option String) :
    CoreResult :=
  match token with
  | none => ⟨.notLoggedIn, none, []⟩
  | some tk =>
  match env.verifyJwt tk with
  | none => ⟨.tokenInvalid, none, []⟩
  | some personId =>
  match env.getSlot slotId with
  | none => ⟨.slotNotFound, none, [.getSlot slotId]⟩
  | some newSlot =>
  match newSlot.schedule with
  | none => ⟨.noScheduleRef, none, [.getSlot slotId]⟩
  | some scheduleRef =>
  let calls2 : List BackendCall := [.getSlot slotId, .getSchedule scheduleRef]
  match env.getSchedule scheduleRef with
  | none => ⟨.scheduleNotFound, none, calls2⟩
  | some schedule =>
  match schedule.actor with
  | [] => ⟨.noActor, none, calls2⟩
  | actorRef :: _ =>
  if jsStartsWith actorRef "Practitioner/" then
    let calls3 := calls2 ++ [.searchRoles actorRef]
    match env.searchRoles actorRef with
    | none => ⟨.roleFetchFailed actorRef, none, calls3⟩
    | some roles =>
    match roles with
    | [] => ⟨.roleNotFound actorRef, none, calls3⟩
    | role :: _ =>
    match role.organization with
    | none => ⟨.organizationMissing actorRef, none, calls3⟩
    | some orgRef =>
    let organizationId := jsSecond orgRef
    let calls4 := calls3 ++ [.searchPatient personId organizationId]
    match env.searchPatient personId organizationId with
    | none => ⟨.patientSearchFailed, none, calls4⟩
    | some patients =>
    match patients with
    | [] => ⟨.patientNotRegistered, none, calls4⟩
    | patientId :: _ =>
    let patientRef := "Patient/" ++ patientId
    let calls5 := calls4 ++ [.searchAppts patientRef scheduleRef]
    let existing := env.searchAppts patientRef scheduleRef
    match conflictSection env existing with
    | .error o => ⟨o, none, calls5⟩
    | .ok (confl, message, conflCalls) =>
      let newAppointment : FhirAppointment :=
        { id := ""
          status := "booked"
          slot := [some ("Slot/" ++ slotId)]
          supportingInformation := [scheduleRef]
          start := newSlot.start
          «end» := newSlot.«end»
          participant := [⟨patientRef, "accepted"⟩, ⟨actorRef, "accepted"⟩] }
      let entries := confl ++
        [.postAppt newAppointment,
         .putSlot { newSlot with status := "busy" } ("Slot/" ++ slotId)]
      let calls6 := calls5 ++ conflCalls ++ [.postTx entries]
      let outcome :=
        match env.tx entries with
        | none => BookOutcome.bookingFailed
        | some txResult =>
          match txResult.find? hasCreatedStatus with
          | none => BookOutcome.invariantViolation
          | some newAppointmentEntry =>
            match newAppointmentEntry.response with
            | none => BookOutcome.noLocation
            | some r =>
              match r.location with
              | none => BookOutcome.noLocation
              | some loc => BookOutcome.success message (jsSecond loc)
      ⟨outcome, some entries, calls6⟩
  else
    ⟨.unsupportedActorType actorRef, none, calls2⟩

/-- Full result of one invocation of `POST /api/book`: the outcome, the
submitted bundle if any, the backend-call trace, and the state of the
`bookingLocks` map when the handler returns. -/
structure BookResult where
  outcome : BookOutcome
  submitted : Option (List TxEntry)
  calls : List BackendCall
  locksAfter : List String
deriving DecidableEq

/-- The whole handler (lines 526-680).  `locks` is the set of slot ids
currently held in `bookingLocks`.  A missing `slotId` is rejected
before the gate; a held gate key is rejected with Busy; otherwise the
key is set, the body runs, and the `finally` block deletes the key on
every path. -/
def book (env : Backend) (locks : List String) (slotId? : Option String)
    (token : Option String) : BookResult :=
  match slotId? with
  | none => ⟨.missingSlotId, none, [], locks⟩
  | some slotId =>
    if locks.contains slotId then
      ⟨.busy, none, [], locks⟩
    else
      let c := bookCore env slotId token
      ⟨c.outcome, c.submitted, c.calls,
       (slotId :: locks).filter (fun k => k != slotId)⟩

/-!
Model of the external FHIR backend.  The backend itself is not part of
this repository; per the spec (sections 4.5 and 6) it is consumed as an
atomic-apply service over resource records, specified only at its
interface boundary.  `applyTx` is that service: the whole entry list is
applied in order, all or nothing.
-/

/-- The resource store of the external backend, restricted to the
resource kinds the booking transaction touches. -/
structure FhirState where
  appointments : List FhirAppointment
  slots : List FhirSlot
deriving DecidableEq

/-- Effect of one transaction entry on the store: `PUT Slot/{id}`
replaces the slot at that url, `DELETE Appointment/{id}` removes the
appointment at that url, `POST Appointment` appends the resource under
the server-assigned id `fid`. -/
def applyEntry (fid : String) (st : FhirState) : TxEntry → FhirState
  | .putSlot resource url =>
    { st with slots := (st.slots.map
        (fun sl => if ("Slot/" ++ sl.id) == url then resource else sl)) }
  | .deleteAppt url =>
    { st with appointments := (st.appointments.filter
        (fun a => ("Appointment/" ++ a.id) != url)) }
  | .postAppt resource =>
    { st with appointments := st.appointments ++ [{ resource with id := fid }] }

/-- Atomic application of a whole transaction bundle, in order. -/
def applyTx (st : FhirState) (entries : List TxEntry) (fid : String) :
    FhirState :=
  entries.foldl (applyEntry fid) st

/-- Whether an appointment matches the conflict query of the handler
(line 595): participant actor = the patient reference,
supportingInformation contains the schedule reference, status booked. -/
def apptMatches (patientRef scheduleRef : String) (a : FhirAppointment) :
    Bool :=
  a.participant.any (fun p => p.actor == patientRef) &&
  a.supportingInformation.contains scheduleRef &&
  a.status == "booked"

/-- The answer an honest backend gives to the conflict query: all
stored appointments matching (patient, schedule, status booked). -/
def conflictQuery (st : FhirState) (patientRef scheduleRef : String) :
    List FhirAppointment :=
  st.appointments.filter (apptMatches patientRef scheduleRef)

/-- Number of booked appointments stored for a (patient, schedule)
pair. -/
def bookedCount (st : FhirState) (patientRef scheduleRef : String) : Nat :=
  st.appointments.countP (apptMatches patientRef scheduleRef)

/-!
Concrete sample data, used to exhibit that the hypotheses of the
theorems below are satisfiable.
-/

/-- A free sample slot attached to schedule sch1. -/
def slotA : FhirSlot :=
  ⟨"s1", some "Schedule/sch1", "2025-08-05T09:30:00", "2025-08-05T10:00:00",
   "free"⟩

/-- A sample schedule whose first actor is a practitioner reference. -/
def schedA : FhirSchedule := ⟨["Practitioner/pr1"]⟩

/-- A sample role binding carrying an organization reference. -/
def roleA : PractRole := ⟨some "Organization/org1"⟩

/-- A prior booked appointment of patient pat1 on schedule sch1, bound
to slot old1. -/
def oldApptA : FhirAppointment :=
  ⟨"a1", "booked", [some "Slot/old1"], ["Schedule/sch1"],
   "2025-08-01T09:30:00", "2025-08-01T10:00:00",
   [⟨"Patient/pat1", "accepted"⟩, ⟨"Practitioner/pr1", "accepted"⟩]⟩

/-- The old slot bound by `oldApptA`. -/
def oldSlotA : FhirSlot :=
  ⟨"old1", some "Schedule/sch1", "2025-08-01T09:30:00",
   "2025-08-01T10:00:00", "busy"⟩

/-- A sample backend on which the whole happy path of the handler
succeeds and the conflict query is empty. -/
def envA : Backend where
  verifyJwt := fun t => if t == "tok" then some "person1" else none
  getSlot := fun i => if i == "s1" then some slotA else none
  getSchedule := fun r => if r == "Schedule/sch1" then some schedA else none
  searchRoles := fun r => if r == "Practitioner/pr1" then some [roleA] else some []
  searchPatient := fun pid org =>
    if pid == "person1" && org == "org1" then some ["pat1"] else some []
  searchAppts := fun _ _ => []
  getSlotByRef := fun _ => none
  tx := fun _ => some [⟨some ⟨"201 Created", some "Appointment/new1/_history/1"⟩⟩]

/-- Like `envA`, but the role-binding search returns an empty bundle
for the practitioner of sch1. -/
def envRoleEmpty : Backend :=
  { envA with searchRoles := fun _ => some [] }

/-- Like `envA`, but the conflict query finds the prior appointment
`oldApptA` and fetching its old slot fails. -/
def envOldSlotGone : Backend :=
  { envA with
      searchAppts := fun p s =>
        if p == "Patient/pat1" && s == "Schedule/sch1" then [oldApptA] else [] }

/-- Like `envOldSlotGone`, but fetching the old slot succeeds. -/
def envOldSlotOk : Backend :=
  { envOldSlotGone with
      getSlotByRef := fun r => if r == "Slot/old1" then some oldSlotA else none }

/-- Like `envA`, but the target slot does not exist. -/
def envSlotMissing : Backend :=
  { envA with getSlot := fun _ => none }

/-- Like `envA`, but the first actor of the schedule is an organization
reference instead of a practitioner reference. -/
def envOrgActor : Backend :=
  { envA with getSchedule := fun r =>
      if r == "Schedule/sch1" then some ⟨["Organization/org1"]⟩ else none }

/-!
Helper lemmas.
-/

/-- Deleting the gate key in the finally block removes it from the held
set, whatever happened in between. -/
lemma not_mem_gate_after (locks : List String) (sid : String) :
    sid ∉ (sid :: locks).filter (fun k => k != sid) := by
  intro hmem
  have := List.of_mem_filter hmem
  simp at this

set_option maxHeartbeats 4000000 in
/-- The body of the handler either submits no transaction and never
issues the transaction call, or does not end in a resolution-step
failure. -/
lemma bookCore_no_tx_or_no_resolution_failure (env : Backend) (sid : String)
    (tok : Option String) :
    ((bookCore env sid tok).submitted = none ∧
     ∀ es, BackendCall.postTx es ∉ (bookCore env sid tok).calls) ∨
    isResolutionFailure (bookCore env sid tok).outcome = false := by
  unfold bookCore
  (repeat' split) <;> try simp [isResolutionFailure]
  all_goals ((repeat' split) <;> try simp [isResolutionFailure])
  all_goals simp_all

/-!
Claim theorems.
-/

/-- C7: on every exit path of the guarded booking operation —
successful completion, any resolution, conflict or transaction error,
and any fault raised after the gate is taken — the gate entry for the
given slot id is released, so a slot id is never left permanently held
by a completed attempt. -/
theorem gate_released_every_path (env : Backend) (locks : List String)
    (slotId : String) (token : Option String) (h : slotId ∉ locks) :
    slotId ∉ (book env locks (some slotId) token).locksAfter := by
  have hc : locks.contains slotId = false := by simpa using h
  simp only [book, hc, Bool.false_eq_true, if_false]
  exact not_mem_gate_after locks slotId

/-- Witness for C7 at a concrete happy-path run. -/
theorem gate_released_every_path_w :
    "s1" ∉ (book envA [] (some "s1") (some "tok")).locksAfter :=
  gate_released_every_path envA [] "s1" (some "tok") (by simp)

/-- C8: a booking attempt whose slot id gate key is already held is
rejected immediately with Busy, the gate mapping is left unchanged, and
no backend call is made during the rejected attempt. -/
theorem busy_rejection_immediate (env : Backend) (locks : List String)
    (slotId : String) (token : Option String) (h : slotId ∈ locks) :
    book env locks (some slotId) token =
      ⟨.busy, none, [], locks⟩ := by
  have hc : locks.contains slotId = true := by simpa using h
  simp only [book, hc]
  simp

/-- Witness for C8 at a concrete held gate key. -/
theorem busy_rejection_immediate_w :
    book envA ["s1"] (some "s1") (some "tok") = ⟨.busy, none, [], ["s1"]⟩ :=
  busy_rejection_immediate envA ["s1"] "s1" (some "tok") (by simp)

/-- C2: whenever the booking operation ends in a resolution-step
failure (slot not found, schedule not found, role binding not found,
organization reference missing, or patient not registered), no
transaction is submitted to the backend and the gate entry for the
given slot id is released before the operation returns. -/
theorem resolution_failure_no_tx_and_release (env : Backend)
    (locks : List String) (slotId : String) (token : Option String)
    (h : slotId ∉ locks)
    (hfail : isResolutionFailure
      (book env locks (some slotId) token).outcome = true) :
    (book env locks (some slotId) token).submitted = none ∧
    (∀ es, BackendCall.postTx es ∉ (book env locks (some slotId) token).calls) ∧
    slotId ∉ (book env locks (some slotId) token).locksAfter := by
  have hc : locks.contains slotId = false := by simpa using h
  simp only [book, hc, Bool.false_eq_true, if_false] at hfail ⊢
  rcases bookCore_no_tx_or_no_resolution_failure env slotId token with
    hok | hno
  · exact ⟨hok.1, hok.2, not_mem_gate_after locks slotId⟩
  · rw [hfail] at hno
    exact absurd hno (by simp)

/-- Witness for C2 at a concrete run whose target slot does not
exist. -/
theorem resolution_failure_no_tx_and_release_w :
    (book envSlotMissing [] (some "s1") (some "tok")).submitted = none ∧
    (∀ es, BackendCall.postTx es ∉
      (book envSlotMissing [] (some "s1") (some "tok")).calls) ∧
    "s1" ∉ (book envSlotMissing [] (some "s1") (some "tok")).locksAfter :=
  resolution_failure_no_tx_and_release envSlotMissing [] "s1" (some "tok")
    (by simp) (by decide)

/-- C9: when the first actor reference of the resolved schedule is not
typed as a practitioner reference, the booking operation fails with the
unsupported-actor-type error and no transaction is submitted to the
backend. -/
theorem unsupported_actor_no_tx (env : Backend) (locks : List String)
    (slotId tok personId : String) (newSlot : FhirSlot)
    (scheduleRef : String) (schedule : FhirSchedule)
    (actorRef : String) (actorRest : List String)
    (h : slotId ∉ locks)
    (hjwt : env.verifyJwt tok = some personId)
    (hslot : env.getSlot slotId = some newSlot)
    (href : newSlot.schedule = some scheduleRef)
    (hsch : env.getSchedule scheduleRef = some schedule)
    (hactor : schedule.actor = actorRef :: actorRest)
    (hnp : jsStartsWith actorRef "Practitioner/" = false) :
    (book env locks (some slotId) (some tok)).outcome =
      .unsupportedActorType actorRef ∧
    (book env locks (some slotId) (some tok)).submitted = none ∧
    (book env locks (some slotId) (some tok)).calls =
      [.getSlot slotId, .getSchedule scheduleRef] := by
  have hc : locks.contains slotId = false := by simpa using h
  simp only [book, hc, Bool.false_eq_true, if_false]
  simp [bookCore, hjwt, hslot, href, hsch, hactor, hnp]

/-- Witness for C9 at a concrete schedule whose first actor is an
organization reference. -/
theorem unsupported_actor_no_tx_w :
    (book envOrgActor [] (some "s1") (some "tok")).outcome =
      .unsupportedActorType "Organization/org1" ∧
    (book envOrgActor [] (some "s1") (some "tok")).submitted = none ∧
    (book envOrgActor [] (some "s1") (some "tok")).calls =
      [.getSlot "s1", .getSchedule "Schedule/sch1"] :=
  unsupported_actor_no_tx envOrgActor [] "s1" "tok" "person1" slotA
    "Schedule/sch1" ⟨["Organization/org1"]⟩ "Organization/org1" []
    (by simp) rfl rfl rfl rfl rfl (by decide)

/-- C10: the booking operation never reads or checks the status of the
target slot: replacing the status returned by the slot fetch with any
string whatsoever (free, busy, or anything else) leaves the entire
result of the operation — outcome, submitted transaction, backend
calls, and gate state — unchanged, because the final transaction entry
unconditionally overwrites the slot status with busy.  In particular a
slot already busy with another patient reservation is rebooked without
any error. -/
theorem slot_status_never_read (env : Backend) (locks : List String)
    (slotId? : Option String) (token : Option String) (newStatus : String) :
    book { env with getSlot := fun i => ((env.getSlot i).map
        (fun sl => { sl with status := newStatus })) } locks slotId? token =
      book env locks slotId? token := by
  cases slotId? with
  | none => rfl
  | some sid =>
    unfold book
    dsimp only
    cases hcl : locks.contains sid
    · have hcore : bookCore { env with getSlot := fun i => ((env.getSlot i).map
          (fun sl => { sl with status := newStatus })) } sid token =
            bookCore env sid token := by
        unfold bookCore
        dsimp only
        cases hs : env.getSlot sid with
        | none => rfl
        | some sl => cases sl; rfl
      simp [hcl, hcore]
    · simp [hcl]

/-- Counterexample for C4 as stated: a run in which the role-binding
search returns an empty bundle ends in the role-not-found outcome, and
the handler reports it with HTTP status 500, a server-class failure,
not a client-class one. -/
theorem role_not_found_server_class_cex :
    (book envRoleEmpty [] (some "s1") (some "tok")).outcome =
      .roleNotFound "Practitioner/pr1" ∧
    httpStatus (book envRoleEmpty [] (some "s1") (some "tok")).outcome = 500 ∧
    ¬ httpStatus (book envRoleEmpty [] (some "s1") (some "tok")).outcome < 500 :=
  ⟨by decide, by decide, by decide⟩

/-- C4 amended: slot-, schedule- and patient-not-found failures are
reported as client-class (404) failures; an empty role-binding search
result is thrown and therefore reported — like a missing organization
reference, an unsupported actor type, and backend and invariant
failures — as a server-class (500) failure. -/
theorem error_classification_amended (env : Backend) (locks : List String)
    (slotId? : Option String) (token : Option String) :
    ((book env locks slotId? token).outcome = .slotNotFound →
      httpStatus (book env locks slotId? token).outcome = 404) ∧
    ((book env locks slotId? token).outcome = .scheduleNotFound →
      httpStatus (book env locks slotId? token).outcome = 404) ∧
    ((book env locks slotId? token).outcome = .patientNotRegistered →
      httpStatus (book env locks slotId? token).outcome = 404) ∧
    (∀ a, (book env locks slotId? token).outcome = .roleNotFound a →
      httpStatus (book env locks slotId? token).outcome = 500) ∧
    (∀ a, (book env locks slotId? token).outcome = .organizationMissing a →
      httpStatus (book env locks slotId? token).outcome = 500) ∧
    (∀ a, (book env locks slotId? token).outcome = .unsupportedActorType a →
      httpStatus (book env locks slotId? token).outcome = 500) ∧
    ((book env locks slotId? token).outcome = .bookingFailed →
      httpStatus (book env locks slotId? token).outcome = 500) ∧
    ((book env locks slotId? token).outcome = .invariantViolation →
      httpStatus (book env locks slotId? token).outcome = 500) :=
  ⟨fun h => by rw [h]; rfl, fun h => by rw [h]; rfl, fun h => by rw [h]; rfl,
   fun a h => by rw [h]; rfl, fun a h => by rw [h]; rfl,
   fun a h => by rw [h]; rfl, fun h => by rw [h]; rfl, fun h => by rw [h]; rfl⟩

/-- Witness for the amended C4 at a concrete run with an empty
role-binding search result. -/
theorem error_classification_amended_w :
    httpStatus (book envRoleEmpty [] (some "s1") (some "tok")).outcome = 500 :=
  (error_classification_amended envRoleEmpty [] (some "s1")
    (some "tok")).2.2.2.1 "Practitioner/pr1" (by decide)

/-- Whether a transaction entry is an update writing a slot resource
with status free. -/
def isSlotFreeUpdate : TxEntry → Bool
  | .putSlot resource _ => resource.status == "free"
  | _ => false

/-- The new appointment resource built by the handler for the sample
environments. -/
def newApptA : FhirAppointment :=
  ⟨"", "booked", [some "Slot/s1"], ["Schedule/sch1"],
   "2025-08-05T09:30:00", "2025-08-05T10:00:00",
   [⟨"Patient/pat1", "accepted"⟩, ⟨"Practitioner/pr1", "accepted"⟩]⟩

/-- Counterexample for C3 as stated: a run in which the conflict
detector finds the prior booked reservation, but the fetch of the old
bound slot fails, submits a transaction that deletes the prior
reservation without any operation setting its bound slot to free. -/
theorem prior_found_without_free_update_cex :
    envOldSlotGone.searchAppts "Patient/pat1" "Schedule/sch1" = [oldApptA] ∧
    (book envOldSlotGone [] (some "s1") (some "tok")).submitted =
      some [.deleteAppt "Appointment/a1", .postAppt newApptA,
            .putSlot { slotA with status := "busy" } "Slot/s1"] ∧
    ([TxEntry.deleteAppt "Appointment/a1", .postAppt newApptA,
      .putSlot { slotA with status := "busy" } "Slot/s1"].all
        (fun e => !(isSlotFreeUpdate e))) = true :=
  ⟨by decide, by decide, by decide⟩

/-- C3 amended: on every booking run in which the conflict detector
finds a prior booked reservation, the submitted operation list contains
the deletion of that reservation, placed before the creation of the new
reservation; the update setting the prior bound slot to status free is
included, immediately before the deletion, exactly when the prior
reservation carries a slot reference and that slot can still be
fetched; if the reference is absent or the fetch fails, only the
deletion precedes the creation; and if the prior reservation has an
empty slot array the handler throws and submits nothing.  The four
conjuncts cover the four branches of the conflict section
exhaustively. -/
theorem conflict_ops_order_amended (env : Backend) (locks : List String)
    (slotId tok personId : String) (newSlot : FhirSlot)
    (scheduleRef : String) (schedule : FhirSchedule)
    (actorRef : String) (actorRest : List String)
    (role : PractRole) (roleRest : List PractRole) (orgRef : String)
    (patientId : String) (patientRest : List String)
    (oldAppt : FhirAppointment) (apptRest : List FhirAppointment)
    (h : slotId ∉ locks)
    (hjwt : env.verifyJwt tok = some personId)
    (hslot : env.getSlot slotId = some newSlot)
    (href : newSlot.schedule = some scheduleRef)
    (hsch : env.getSchedule scheduleRef = some schedule)
    (hactor : schedule.actor = actorRef :: actorRest)
    (hpract : jsStartsWith actorRef "Practitioner/" = true)
    (hroles : env.searchRoles actorRef = some (role :: roleRest))
    (horg : role.organization = some orgRef)
    (hpat : env.searchPatient personId (jsSecond orgRef) =
      some (patientId :: patientRest))
    (hconf : env.searchAppts ("Patient/" ++ patientId) scheduleRef =
      oldAppt :: apptRest) :
    (oldAppt.slot = [] →
      (book env locks (some slotId) (some tok)).submitted = none) ∧
    (∀ slotRefRest, oldAppt.slot = none :: slotRefRest →
      (book env locks (some slotId) (some tok)).submitted = some
        [.deleteAppt ("Appointment/" ++ oldAppt.id),
         .postAppt ⟨"", "booked", [some ("Slot/" ++ slotId)], [scheduleRef],
           newSlot.start, newSlot.«end»,
           [⟨"Patient/" ++ patientId, "accepted"⟩, ⟨actorRef, "accepted"⟩]⟩,
         .putSlot { newSlot with status := "busy" } ("Slot/" ++ slotId)]) ∧
    (∀ oldSlotRef slotRefRest, oldAppt.slot = some oldSlotRef :: slotRefRest →
      env.getSlotByRef oldSlotRef = none →
      (book env locks (some slotId) (some tok)).submitted = some
        [.deleteAppt ("Appointment/" ++ oldAppt.id),
         .postAppt ⟨"", "booked", [some ("Slot/" ++ slotId)], [scheduleRef],
           newSlot.start, newSlot.«end»,
           [⟨"Patient/" ++ patientId, "accepted"⟩, ⟨actorRef, "accepted"⟩]⟩,
         .putSlot { newSlot with status := "busy" } ("Slot/" ++ slotId)]) ∧
    (∀ oldSlotRef slotRefRest oldSlot,
      oldAppt.slot = some oldSlotRef :: slotRefRest →
      env.getSlotByRef oldSlotRef = some oldSlot →
      (book env locks (some slotId) (some tok)).submitted = some
        [.putSlot { oldSlot with status := "free" } oldSlotRef,
         .deleteAppt ("Appointment/" ++ oldAppt.id),
         .postAppt ⟨"", "booked", [some ("Slot/" ++ slotId)], [scheduleRef],
           newSlot.start, newSlot.«end»,
           [⟨"Patient/" ++ patientId, "accepted"⟩, ⟨actorRef, "accepted"⟩]⟩,
         .putSlot { newSlot with status := "busy" } ("Slot/" ++ slotId)]) := by
  have hc : locks.contains slotId = false := by simpa using h
  refine ⟨?_, ?_, ?_, ?_⟩
  · intro hoslot
    simp only [book, hc, Bool.false_eq_true, if_false]
    simp [bookCore, conflictSection, hjwt, hslot, href, hsch, hactor, hpract,
          hroles, horg, hpat, hconf, hoslot]
  · intro slotRefRest hoslot
    simp only [book, hc, Bool.false_eq_true, if_false]
    simp [bookCore, conflictSection, hjwt, hslot, href, hsch, hactor, hpract,
          hroles, horg, hpat, hconf, hoslot]
  · intro oldSlotRef slotRefRest hoslot hofetch
    simp only [book, hc, Bool.false_eq_true, if_false]
    simp [bookCore, conflictSection, hjwt, hslot, href, hsch, hactor, hpract,
          hroles, horg, hpat, hconf, hoslot, hofetch]
  · intro oldSlotRef slotRefRest oldSlot hoslot hofetch
    simp only [book, hc, Bool.false_eq_true, if_false]
    simp [bookCore, conflictSection, hjwt, hslot, href, hsch, hactor, hpract,
          hroles, horg, hpat, hconf, hoslot, hofetch]

/-- Witness for the amended C3 at a concrete run where the prior
reservation and its bound slot both resolve. -/
theorem conflict_ops_order_amended_w :
    (book envOldSlotOk [] (some "s1") (some "tok")).submitted = some
      [.putSlot { oldSlotA with status := "free" } "Slot/old1",
       .deleteAppt "Appointment/a1",
       .postAppt ⟨"", "booked", [some ("Slot/" ++ "s1")], ["Schedule/sch1"],
         slotA.start, slotA.«end»,
         [⟨"Patient/" ++ "pat1", "accepted"⟩, ⟨"Practitioner/pr1", "accepted"⟩]⟩,
       .putSlot { slotA with status := "busy" } ("Slot/" ++ "s1")] :=
  (conflict_ops_order_amended envOldSlotOk [] "s1" "tok" "person1" slotA
    "Schedule/sch1" schedA "Practitioner/pr1" [] roleA [] "Organization/org1"
    "pat1" [] oldApptA []
    (by simp) rfl rfl rfl rfl rfl (by decide) rfl rfl (by decide)
    (by decide)).2.2.2 "Slot/old1" [] oldSlotA rfl rfl

/-- C5: on every successful resolution, the new reservation added to
the transaction has status booked, bound slot the target slot, bound
schedule the resolved schedule, participants the resolved patient
identity and the acting party each with state accepted, and start and
end copied from the target slot; and the operation list ends with the
update of the target slot to status busy. -/
theorem new_reservation_shape (env : Backend) (locks : List String)
    (slotId tok personId : String) (newSlot : FhirSlot)
    (scheduleRef : String) (schedule : FhirSchedule)
    (actorRef : String) (actorRest : List String)
    (role : PractRole) (roleRest : List PractRole) (orgRef : String)
    (patientId : String) (patientRest : List String) (B : List TxEntry)
    (h : slotId ∉ locks)
    (hjwt : env.verifyJwt tok = some personId)
    (hslot : env.getSlot slotId = some newSlot)
    (href : newSlot.schedule = some scheduleRef)
    (hsch : env.getSchedule scheduleRef = some schedule)
    (hactor : schedule.actor = actorRef :: actorRest)
    (hpract : jsStartsWith actorRef "Practitioner/" = true)
    (hroles : env.searchRoles actorRef = some (role :: roleRest))
    (horg : role.organization = some orgRef)
    (hpat : env.searchPatient personId (jsSecond orgRef) =
      some (patientId :: patientRest))
    (hsub : (book env locks (some slotId) (some tok)).submitted = some B) :
    ∃ confl, B = confl ++
      [.postAppt ⟨"", "booked", [some ("Slot/" ++ slotId)], [scheduleRef],
         newSlot.start, newSlot.«end»,
         [⟨"Patient/" ++ patientId, "accepted"⟩, ⟨actorRef, "accepted"⟩]⟩,
       .putSlot { newSlot with status := "busy" } ("Slot/" ++ slotId)] := by
  have hc : locks.contains slotId = false := by simpa using h
  simp only [book, hc, Bool.false_eq_true, if_false] at hsub
  simp only [bookCore, hjwt, hslot, href, hsch, hactor, hpract, hroles, horg,
    hpat, if_true] at hsub
  rcases hcs : conflictSection env
      (env.searchAppts ("Patient/" ++ patientId) scheduleRef) with o | ⟨confl, message, conflCalls⟩
  · rw [hcs] at hsub
    simp at hsub
  · rw [hcs] at hsub
    simp at hsub
    refine ⟨confl, ?_⟩
    rw [href]
    exact hsub.symm

/-- Witness for C5 at a concrete happy-path run. -/
theorem new_reservation_shape_w :
    ∃ confl, [TxEntry.postAppt newApptA,
      TxEntry.putSlot { slotA with status := "busy" } "Slot/s1"] = confl ++
      [.postAppt ⟨"", "booked", [some ("Slot/" ++ "s1")], ["Schedule/sch1"],
         slotA.start, slotA.«end»,
         [⟨"Patient/" ++ "pat1", "accepted"⟩, ⟨"Practitioner/pr1", "accepted"⟩]⟩,
       .putSlot { slotA with status := "busy" } ("Slot/" ++ "s1")] :=
  new_reservation_shape envA [] "s1" "tok" "person1" slotA "Schedule/sch1"
    schedA "Practitioner/pr1" [] roleA [] "Organization/org1" "pat1" []
    [TxEntry.postAppt newApptA,
     TxEntry.putSlot { slotA with status := "busy" } "Slot/s1"]
    (by simp) rfl rfl rfl rfl rfl (by decide) rfl rfl (by decide) (by decide)

/-- If the filter of a list by a predicate is a singleton, the first
match found by the predicate is that element. -/
lemma find?_eq_of_filter_singleton {α : Type} (p : α → Bool) (l : List α)
    (a : α) (h : l.filter p = [a]) : l.find? p = some a := by
  induction l with
  | nil => simp at h
  | cons x xs ih =>
    cases hp : p x with
    | false =>
      simp [List.filter_cons, hp] at h
      simp [List.find?_cons, hp]
      exact ih h
    | true =>
      simp [List.filter_cons, hp] at h
      obtain ⟨rfl, h2⟩ := h
      simp [List.find?_cons, hp]

/-- C6: when the transaction submission is reported successful, the
identifier returned to the caller is extracted from the location of the
per-operation result carrying the 2xx creation status — under the
backend contract that exactly one response entry, the one corresponding
to the reservation creation, carries such a status; and when the
submission is reported successful but no creation result is present,
the operation ends in the invariant-violation failure instead of
returning success. -/
theorem created_id_extraction (env : Backend) (locks : List String)
    (slotId tok personId : String) (newSlot : FhirSlot)
    (scheduleRef : String) (schedule : FhirSchedule)
    (actorRef : String) (actorRest : List String)
    (role : PractRole) (roleRest : List PractRole) (orgRef : String)
    (patientId : String) (patientRest : List String)
    (confl : List TxEntry) (message : String) (conflCalls : List BackendCall)
    (resps : List TxRespEntry) (e : TxRespEntry) (r : TxResp) (loc : String)
    (h : slotId ∉ locks)
    (hjwt : env.verifyJwt tok = some personId)
    (hslot : env.getSlot slotId = some newSlot)
    (href : newSlot.schedule = some scheduleRef)
    (hsch : env.getSchedule scheduleRef = some schedule)
    (hactor : schedule.actor = actorRef :: actorRest)
    (hpract : jsStartsWith actorRef "Practitioner/" = true)
    (hroles : env.searchRoles actorRef = some (role :: roleRest))
    (horg : role.organization = some orgRef)
    (hpat : env.searchPatient personId (jsSecond orgRef) =
      some (patientId :: patientRest))
    (hcs : conflictSection env
      (env.searchAppts ("Patient/" ++ patientId) scheduleRef) =
        .ok (confl, message, conflCalls))
    (htx : env.tx (confl ++
      [.postAppt ⟨"", "booked", [some ("Slot/" ++ slotId)], [scheduleRef],
         newSlot.start, newSlot.«end»,
         [⟨"Patient/" ++ patientId, "accepted"⟩, ⟨actorRef, "accepted"⟩]⟩,
       .putSlot { newSlot with status := "busy" } ("Slot/" ++ slotId)]) =
        some resps) :
    (resps.filter hasCreatedStatus = [e] → e.response = some r →
      r.location = some loc →
      (book env locks (some slotId) (some tok)).outcome =
        .success message (jsSecond loc)) ∧
    (resps.find? hasCreatedStatus = none →
      (book env locks (some slotId) (some tok)).outcome =
        .invariantViolation) := by
  have hc : locks.contains slotId = false := by simpa using h
  rw [href] at htx
  constructor
  · intro hfil hresp hloc
    have hfind := find?_eq_of_filter_singleton hasCreatedStatus resps e hfil
    simp only [book, hc, Bool.false_eq_true, if_false]
    simp [bookCore, hjwt, hslot, href, hsch, hactor, hpract, hroles, horg,
      hpat, hcs, htx, hfind, hresp, hloc]
  · intro hnone
    simp only [book, hc, Bool.false_eq_true, if_false]
    simp [bookCore, hjwt, hslot, href, hsch, hactor, hpract, hroles, horg,
      hpat, hcs, htx, hnone]

/-- Witness for C6 at a concrete run whose transaction response carries
one creation entry. -/
theorem created_id_extraction_w :
    (book envA [] (some "s1") (some "tok")).outcome =
      .success "預約成功！" (jsSecond "Appointment/new1/_history/1") :=
  (created_id_extraction envA [] "s1" "tok" "person1" slotA "Schedule/sch1"
    schedA "Practitioner/pr1" [] roleA [] "Organization/org1" "pat1" []
    [] "預約成功！" []
    [⟨some ⟨"201 Created", some "Appointment/new1/_history/1"⟩⟩]
    ⟨some ⟨"201 Created", some "Appointment/new1/_history/1"⟩⟩
    ⟨"201 Created", some "Appointment/new1/_history/1"⟩
    "Appointment/new1/_history/1"
    (by simp) rfl rfl rfl rfl rfl (by decide) rfl rfl (by decide) rfl
    rfl).1 (by decide) rfl rfl

/-- The number of booked appointments of a pair is the length of the
conflict-query answer. -/
lemma bookedCount_eq_length (st : FhirState) (p s : String) :
    bookedCount st p s = (conflictQuery st p s).length := by
  simp [bookedCount, conflictQuery, List.countP_eq_length_filter]

/-- Deleting the appointment found by the conflict query removes every
match of the pair when the query answer was a singleton. -/
lemma countP_erase_conflict (appts : List FhirAppointment) (p s : String)
    (old : FhirAppointment)
    (hq : appts.filter (apptMatches p s) = [old]) :
    (appts.filter
      (fun a => ("Appointment/" ++ a.id) != ("Appointment/" ++ old.id))).countP
      (apptMatches p s) = 0 := by
  rw [List.countP_eq_zero]
  intro a ha hm
  have h1 := List.mem_filter.mp ha
  have h2 : a ∈ appts.filter (apptMatches p s) := List.mem_filter.mpr ⟨h1.1, hm⟩
  rw [hq] at h2
  simp at h2
  subst h2
  simp at h1

/-- C1: starting from any backend store holding at most one booked
reservation for the (patient identity, schedule) pair, a successful run
of the booking operation submits a transaction whose atomic application
leaves exactly one booked reservation for that pair: the prior one
found by the conflict query is deleted in the same transaction that
creates the new one. -/
theorem booking_preserves_single_booked (st : FhirState) (fid : String)
    (env : Backend) (locks : List String)
    (slotId tok personId : String) (newSlot : FhirSlot)
    (scheduleRef : String) (schedule : FhirSchedule)
    (actorRef : String) (actorRest : List String)
    (role : PractRole) (roleRest : List PractRole) (orgRef : String)
    (patientId : String) (patientRest : List String) (B : List TxEntry)
    (h : slotId ∉ locks)
    (hjwt : env.verifyJwt tok = some personId)
    (hslot : env.getSlot slotId = some newSlot)
    (href : newSlot.schedule = some scheduleRef)
    (hsch : env.getSchedule scheduleRef = some schedule)
    (hactor : schedule.actor = actorRef :: actorRest)
    (hpract : jsStartsWith actorRef "Practitioner/" = true)
    (hroles : env.searchRoles actorRef = some (role :: roleRest))
    (horg : role.organization = some orgRef)
    (hpat : env.searchPatient personId (jsSecond orgRef) =
      some (patientId :: patientRest))
    (hq : env.searchAppts ("Patient/" ++ patientId) scheduleRef =
      conflictQuery st ("Patient/" ++ patientId) scheduleRef)
    (hpre : bookedCount st ("Patient/" ++ patientId) scheduleRef ≤ 1)
    (hsub : (book env locks (some slotId) (some tok)).submitted = some B)
    (_hsucc : ∃ m i, (book env locks (some slotId) (some tok)).outcome =
      .success m i) :
    bookedCount (applyTx st B fid) ("Patient/" ++ patientId) scheduleRef
      = 1 := by
  have hc : locks.contains slotId = false := by simpa using h
  simp only [book, hc, Bool.false_eq_true, if_false] at hsub
  simp only [bookCore, hjwt, hslot, href, hsch, hactor, hpract, hroles, horg,
    hpat, if_true, hq] at hsub
  cases hcq : conflictQuery st ("Patient/" ++ patientId) scheduleRef with
  | nil =>
    rw [hcq] at hsub
    simp [conflictSection] at hsub
    have hzero : st.appointments.countP
        (apptMatches ("Patient/" ++ patientId) scheduleRef) = 0 := by
      rw [List.countP_eq_length_filter]
      have h0 : st.appointments.filter
          (apptMatches ("Patient/" ++ patientId) scheduleRef) = [] := hcq
      rw [h0]
      rfl
    rw [← hsub]
    simp [applyTx, applyEntry, bookedCount, List.countP_append,
      List.countP_cons, hzero, apptMatches]
  | cons old rest =>
    rw [bookedCount_eq_length, hcq] at hpre
    simp at hpre
    subst hpre
    rw [hcq] at hsub
    cases hos : old.slot with
    | nil =>
      simp [conflictSection, hos] at hsub
    | cons oref orest =>
      cases oref with
      | none =>
        simp [conflictSection, hos] at hsub
        rw [← hsub]
        simp [applyTx, applyEntry, bookedCount, List.countP_append,
          List.countP_cons, apptMatches,
          countP_erase_conflict st.appointments _ _ old hcq]
      | some oruri =>
        cases hof : env.getSlotByRef oruri with
        | none =>
          simp [conflictSection, hos, hof] at hsub
          rw [← hsub]
          simp [applyTx, applyEntry, bookedCount, List.countP_append,
            List.countP_cons, apptMatches,
            countP_erase_conflict st.appointments _ _ old hcq]
        | some oslot =>
          simp [conflictSection, hos, hof] at hsub
          rw [← hsub]
          simp [applyTx, applyEntry, bookedCount, List.countP_append,
            List.countP_cons, apptMatches,
            countP_erase_conflict st.appointments _ _ old hcq]

/-- The sample backend store for the C1 witness: one prior booked
reservation of pat1 on sch1, bound to slot old1. -/
def stB : FhirState := ⟨[oldApptA], [slotA, oldSlotA]⟩

/-- Witness for C1 at a concrete superseding run: the store holds one
booked reservation, the run replaces it, and the resulting store again
holds exactly one. -/
theorem booking_preserves_single_booked_w :
    bookedCount (applyTx stB
      [.putSlot { oldSlotA with status := "free" } "Slot/old1",
       .deleteAppt "Appointment/a1",
       .postAppt ⟨"", "booked", [some ("Slot/" ++ "s1")], ["Schedule/sch1"],
         slotA.start, slotA.«end»,
         [⟨"Patient/" ++ "pat1", "accepted"⟩, ⟨"Practitioner/pr1", "accepted"⟩]⟩,
       .putSlot { slotA with status := "busy" } ("Slot/" ++ "s1")]
      "new1") ("Patient/" ++ "pat1") "Schedule/sch1" = 1 :=
  booking_preserves_single_booked stB "new1" envOldSlotOk [] "s1" "tok"
    "person1" slotA "Schedule/sch1" schedA "Practitioner/pr1" [] roleA []
    "Organization/org1" "pat1" []
    [.putSlot { oldSlotA with status := "free" } "Slot/old1",
     .deleteAppt "Appointment/a1",
     .postAppt ⟨"", "booked", [some ("Slot/" ++ "s1")], ["Schedule/sch1"],
       slotA.start, slotA.«end»,
       [⟨"Patient/" ++ "pat1", "accepted"⟩, ⟨"Practitioner/pr1", "accepted"⟩]⟩,
     .putSlot { slotA with status := "busy" } ("Slot/" ++ "s1")]
    (by simp) rfl rfl rfl rfl rfl (by decide) rfl rfl (by decide) (by decide)
    (by decide) (by decide) ⟨"預約已更新！", "new1", by decide⟩

end Booking
